import Mathlib

/-!
Verification of the Noah ZK-KYC protocol core.

Part 1: the `ZKKYC` gnark circuit (`circuit/circuit.go`, embedded at the end
of `test/ProtocolAccessControl.t.sol`), modelled over the BN254 scalar field
used by `ecc.BN254.ScalarField()`.

gnark API semantics used by the circuit:
- `api.Cmp a b` returns `1` if `a > b`, `0` if `a = b`, `-1` if `a < b`,
  comparing the unsigned integer values of field elements;
- `api.IsZero a` returns `1` if `a = 0`, else `0`;
- `api.Add/Sub/Mul` are field operations.
-/

namespace Noah

/-- The BN254 scalar field modulus (`ecc.BN254.ScalarField()`). -/
def p : ℕ := 21888242871839275222246405745257275088548364400416034343698204186575808495617

/-- Circuit values are elements of the BN254 scalar field. -/
abbrev F : Type := ZMod p

instance : NeZero p := ⟨by norm_num [p]⟩

instance : Fact (1 < p) := ⟨by norm_num [p]⟩

/-- gnark `api.Cmp`: 1 if `a > b`, 0 if `a = b`, -1 if `a < b`,
comparing full-width unsigned integer values of the field elements. -/
def gcmp (a b : F) : F :=
  if b.val < a.val then 1 else if a.val = b.val then 0 else -1

/-- gnark `api.IsZero`: 1 if `a = 0`, else 0. -/
def gIsZero (a : F) : F := if a = 0 then 1 else 0

/-- The `ZKKYC` circuit's input signals (private witness and public inputs),
field for field as in the Go struct. -/
structure ZKKYC where
  actualAge : F
  actualJurisdiction : F
  actualAccredited : F
  credentialHash : F
  passportNumber : F
  expiryDate : F
  minAge : F
  allowedJurisdictions : Fin 10 → F
  requireAccredited : F
  credentialHashPublic : F
  recipientAddress : F
  currentDate : F
  sanctionedCountries : Fin 10 → F

/-- The circuit's public outputs. -/
structure CircuitOutputs where
  isValid : F
  nullifier : F
  packedFlags : F

namespace ZKKYC

/-- One iteration of the loop in `checkJurisdiction`:
`matches[i] = Mul(Cmp(allowed[i], 0), IsZero(Sub(actual, allowed[i])))`. -/
def matchAt (actual : F) (allowed : Fin 10 → F) (i : Fin 10) : F :=
  gcmp (allowed i) 0 * gIsZero (actual - allowed i)

/-- The OR-reduction sum `sum = Add(sum, matches[i])` over the 10 slots. -/
def matchSum (actual : F) (allowed : Fin 10 → F) : F :=
  (List.finRange 10).foldl (fun acc i => acc + matchAt actual allowed i) 0

/-- Go `checkJurisdiction`: membership of `actual` in the 10-slot list,
slots holding 0 being empty; returns `Cmp(sum, 0)`. -/
def checkJurisdiction (actual : F) (allowed : Fin 10 → F) : F :=
  gcmp (matchSum actual allowed) 0

/-- Go `checkSanctions`: `1 - checkJurisdiction(actual, sanctioned)`. -/
def checkSanctions (actual : F) (sanctioned : Fin 10 → F) : F :=
  1 - checkJurisdiction actual sanctioned

/-- Go `checkAccreditation`: valid when not required, else must match. -/
def checkAccreditation (actual required : F) : F :=
  let notRequired := gIsZero required
  let isMatch := gIsZero (actual - required)
  let notRequiredComplement := 1 - notRequired
  let requiredAndMatches := notRequiredComplement * isMatch
  notRequired + requiredAndMatches

/-- Constraint `ageValid := api.Cmp(circuit.ActualAge, circuit.MinAge)`. -/
def ageValid (c : ZKKYC) : F := gcmp c.actualAge c.minAge

/-- Constraint `isOver18 := api.Cmp(circuit.ActualAge, 18)`. -/
def isOver18 (c : ZKKYC) : F := gcmp c.actualAge 18

/-- Constraint `isOver21 := api.Cmp(circuit.ActualAge, 21)`. -/
def isOver21 (c : ZKKYC) : F := gcmp c.actualAge 21

/-- Constraint `jurisdictionValid := checkJurisdiction(actualJurisdiction, allowedJurisdictions)`. -/
def jurisdictionValid (c : ZKKYC) : F :=
  checkJurisdiction c.actualJurisdiction c.allowedJurisdictions

/-- Constraint `isNotSanctioned := checkSanctions(actualJurisdiction, sanctionedCountries)`. -/
def isNotSanctioned (c : ZKKYC) : F :=
  checkSanctions c.actualJurisdiction c.sanctionedCountries

/-- Constraint `expiryValid := api.Cmp(circuit.ExpiryDate, circuit.CurrentDate)`. -/
def expiryValid (c : ZKKYC) : F := gcmp c.expiryDate c.currentDate

/-- Constraint `hashValid := api.IsZero(api.Sub(credentialHash, credentialHashPublic))`. -/
def hashValid (c : ZKKYC) : F := gIsZero (c.credentialHash - c.credentialHashPublic)

/-- Constraint `accreditationValid := checkAccreditation(actualAccredited, requireAccredited)`. -/
def accreditationValid (c : ZKKYC) : F :=
  checkAccreditation c.actualAccredited c.requireAccredited

/-- The circuit's `Define` body: the three output signals it constrains. -/
def define (c : ZKKYC) : CircuitOutputs :=
  { nullifier := c.passportNumber * 1
    packedFlags :=
      (isOver18 c + isOver21 c * 2) + (expiryValid c * 4 + isNotSanctioned c * 8)
    isValid :=
      ageValid c * (jurisdictionValid c * (hashValid c *
        (accreditationValid c * (expiryValid c * isNotSanctioned c)))) }

end ZKKYC

/-!
Part 2: the on-chain contracts (`CredentialRegistry.sol` and
`ProtocolAccessControl.sol`), modelled with `bytes32` and `address` values
as `Nat` (the zero address is `0`) and each external function as an
`Except`-valued state transition: an `.error` result is a revert, leaving
the pre-state in force.  Every external function takes the transaction's
`msg.sender` as its `caller` argument.
-/

/-- Pointwise update of a Solidity `mapping`. -/
def updMap {α : Type} (m : Nat → α) (k : Nat) (v : α) : Nat → α :=
  fun x => if x = k then v else m x

/-- Update of a nested `mapping(address => mapping(address => ...))`. -/
def updMap2 {α : Type} (m : Nat → Nat → α) (k1 k2 : Nat) (v : α) : Nat → Nat → α :=
  fun a => if a = k1 then updMap (m a) k2 v else m a

/-- Revert reasons of `CredentialRegistry`, one per `require` string. -/
inductive RegError
  | notTrustedIssuer
  | credentialAlreadyExists
  | credentialWasRevoked
  | credentialMissing
  | credentialRevoked
  | identityConflict
  | notAuthorizedToRevoke
  | issuerAlreadyExists
  | issuerMissing
  | missingIssuerManagerRole
  deriving DecidableEq, Repr

/-- Storage of `CredentialRegistry` (plus the two OpenZeppelin
`AccessControl` role sets the contract consults). -/
structure RegistryState where
  credentials : Nat → Bool
  credentialIssuers : Nat → Nat
  revokedCredentials : Nat → Bool
  trustedIssuers : Nat → Bool
  issuerNames : Nat → String
  nullifierOwners : Nat → Nat
  userToCredential : Nat → Nat
  admins : Nat → Bool
  issuerManagers : Nat → Bool

namespace RegistryState

/-- Solidity `registerCredential(credentialHash, user)` under the `onlyIssuer` modifier. -/
def registerCredential (s : RegistryState) (caller credentialHash user : Nat) :
    Except RegError RegistryState :=
  if s.trustedIssuers caller = false then .error .notTrustedIssuer
  else if s.credentials credentialHash = true then .error .credentialAlreadyExists
  else if s.revokedCredentials credentialHash = true then .error .credentialWasRevoked
  else .ok { s with
    credentials := updMap s.credentials credentialHash true
    credentialIssuers := updMap s.credentialIssuers credentialHash caller
    userToCredential := updMap s.userToCredential user credentialHash }

/-- Solidity `registerNullifier(nullifier, credentialHash, user)`; note the body never
reads `caller`. -/
def registerNullifier (s : RegistryState) (caller nullifier credentialHash user : Nat) :
    Except RegError RegistryState :=
  if s.credentials credentialHash = false then .error .credentialMissing
  else if s.revokedCredentials credentialHash = true then .error .credentialRevoked
  else if s.nullifierOwners nullifier = 0 then
    .ok { s with nullifierOwners := updMap s.nullifierOwners nullifier user }
  else if s.nullifierOwners nullifier = user then .ok s
  else .error .identityConflict

/-- Solidity `revokeCredential(credentialHash)`: original issuer or admin only. -/
def revokeCredential (s : RegistryState) (caller credentialHash : Nat) :
    Except RegError RegistryState :=
  if s.credentials credentialHash = false then .error .credentialMissing
  else if ¬(s.credentialIssuers credentialHash = caller ∨ s.admins caller = true) then
    .error .notAuthorizedToRevoke
  else .ok { s with revokedCredentials := updMap s.revokedCredentials credentialHash true }

/-- Solidity `isCredentialValid(credentialHash)`: exists and not revoked. -/
def isCredentialValid (s : RegistryState) (credentialHash : Nat) : Bool :=
  s.credentials credentialHash && !s.revokedCredentials credentialHash

/-- Solidity `addIssuer(issuer, name)` under `onlyRole(ISSUER_MANAGER_ROLE)`. -/
def addIssuer (s : RegistryState) (caller issuer : Nat) (name : String) :
    Except RegError RegistryState :=
  if s.issuerManagers caller = false then .error .missingIssuerManagerRole
  else if s.trustedIssuers issuer = true then .error .issuerAlreadyExists
  else .ok { s with
    trustedIssuers := updMap s.trustedIssuers issuer true
    issuerNames := updMap s.issuerNames issuer name }

/-- Solidity `removeIssuer(issuer)` under `onlyRole(ISSUER_MANAGER_ROLE)`. -/
def removeIssuer (s : RegistryState) (caller issuer : Nat) :
    Except RegError RegistryState :=
  if s.issuerManagers caller = false then .error .missingIssuerManagerRole
  else if s.trustedIssuers issuer = false then .error .issuerMissing
  else .ok { s with trustedIssuers := updMap s.trustedIssuers issuer false }

end RegistryState

/-- One external call to `CredentialRegistry`, with its arguments. -/
inductive RegOp
  | registerCredential (caller credentialHash user : Nat)
  | registerNullifier (caller nullifier credentialHash user : Nat)
  | revokeCredential (caller credentialHash : Nat)
  | addIssuer (caller issuer : Nat) (name : String)
  | removeIssuer (caller issuer : Nat)

/-- Execute one call as a transaction: a revert leaves the state unchanged. -/
def regStep (s : RegistryState) : RegOp → RegistryState
  | .registerCredential caller h u =>
      match s.registerCredential caller h u with | .ok s2 => s2 | .error _ => s
  | .registerNullifier caller n h u =>
      match s.registerNullifier caller n h u with | .ok s2 => s2 | .error _ => s
  | .revokeCredential caller h =>
      match s.revokeCredential caller h with | .ok s2 => s2 | .error _ => s
  | .addIssuer caller i name =>
      match s.addIssuer caller i name with | .ok s2 => s2 | .error _ => s
  | .removeIssuer caller i =>
      match s.removeIssuer caller i with | .ok s2 => s2 | .error _ => s

/-- Execute a sequence of calls in order. -/
def regRun (s : RegistryState) (ops : List RegOp) : RegistryState :=
  ops.foldl regStep s

/-- Revert reasons of `ProtocolAccessControl.verifyAndGrantAccess`, one per
`require` string, in source order; `registry e` propagates a revert raised
inside the nested `credentialRegistry.registerNullifier` call. -/
inductive VError
  | tooManyJurisdictions
  | requirementsNotSet
  | invalidCredential
  | invalidProof
  | isValidNotOne
  | ageMismatch
  | jurisdictionMismatch
  | accreditationMismatch
  | notBoundToUser
  | credentialHashMismatch
  | passportExpired
  | nationalitySanctioned
  | notOver21
  | notOver18
  | proofDateInFuture
  | arithmeticUnderflow
  | proofTooOld
  | registry (e : RegError)
  deriving DecidableEq, Repr

/-- A protocol's `Requirements` record. -/
structure Requirements where
  minAge : Nat
  allowedJurisdictions : List Nat
  requireAccredited : Bool
  isSet : Bool

/-- Storage of `ProtocolAccessControl`. -/
structure PACState where
  protocolRequirements : Nat → Requirements
  hasAccess : Nat → Nat → Bool
  userCredentials : Nat → Nat → Nat

namespace PACState

/-- Solidity `setRequirements(minAge, allowedJurisdictions, requireAccredited)`. -/
def setRequirements (pac : PACState) (caller minAge : Nat)
    (allowedJurisdictions : List Nat) (requireAccredited : Bool) :
    Except VError PACState :=
  if 10 < allowedJurisdictions.length then .error .tooManyJurisdictions
  else .ok { pac with
    protocolRequirements := updMap pac.protocolRequirements caller
      { minAge := minAge
        allowedJurisdictions := allowedJurisdictions
        requireAccredited := requireAccredited
        isSet := true } }

end PACState

/-- The value the jurisdiction loop requires at `publicSignals[1+i]`:
the policy's slot `i` when `i` is below the list's length, else `0`. -/
def expectedJurisdiction (req : List Nat) (i : Nat) : Nat :=
  if i < req.length then req.getD i 0 else 0

/-- The jurisdiction loop of `verifyAndGrantAccess`: all ten slot checks
pass (each failing slot reverts with the same reason, so one flag is
observationally faithful). -/
def jurisdictionMatches (req : List Nat) (signals : Nat → Nat) : Bool :=
  (List.range 10).all fun i => signals (1 + i) == expectedJurisdiction req i

/-- Solidity `verifyAndGrantAccess(a, b, c, publicSignals, credentialHash, user)`.
The pairing-based proof check `zkVerifier.verifyProof(a,b,c,publicSignals)`
is the opaque external backend; its boolean verdict enters as `proofOk`.
`selfAddr` is `address(this)`, the `msg.sender` the registry sees for the
nested `registerNullifier` call; `blockTimestamp` is `block.timestamp`.
`publicSignals` is the fixed 28-slot array, indexed 0..27.  Solidity 0.8
checked arithmetic makes `block.timestamp - 1 hours` itself revert when the
timestamp is below 3600, modelled by the `arithmeticUnderflow` branch. -/
def verifyAndGrantAccess (reg : RegistryState) (pac : PACState)
    (caller selfAddr : Nat) (proofOk : Bool) (signals : Nat → Nat)
    (credentialHash user blockTimestamp : Nat) :
    Except VError (RegistryState × PACState) :=
  let req := pac.protocolRequirements caller
  if req.isSet = false then .error .requirementsNotSet
  else if reg.isCredentialValid credentialHash = false then .error .invalidCredential
  else if proofOk = false then .error .invalidProof
  else if signals 25 ≠ 1 then .error .isValidNotOne
  else if signals 0 ≠ req.minAge then .error .ageMismatch
  else if jurisdictionMatches req.allowedJurisdictions signals = false then
    .error .jurisdictionMismatch
  else if signals 11 ≠ (if req.requireAccredited then 1 else 0) then
    .error .accreditationMismatch
  else if signals 13 ≠ user then .error .notBoundToUser
  else if signals 12 ≠ Nat.land credentialHash 0xFFFFFFFFFFFFFFF then
    .error .credentialHashMismatch
  else if Nat.land (signals 27) 0x4 = 0 then .error .passportExpired
  else if Nat.land (signals 27) 0x8 = 0 then .error .nationalitySanctioned
  else if 21 ≤ req.minAge ∧ Nat.land (signals 27) 0x2 = 0 then .error .notOver21
  else if req.minAge < 21 ∧ 18 ≤ req.minAge ∧ Nat.land (signals 27) 0x1 = 0 then
    .error .notOver18
  else if blockTimestamp < signals 14 then .error .proofDateInFuture
  else if blockTimestamp < 3600 then .error .arithmeticUnderflow
  else if signals 14 < blockTimestamp - 3600 then .error .proofTooOld
  else
    match reg.registerNullifier selfAddr (signals 26) credentialHash user with
    | .error e => .error (.registry e)
    | .ok reg2 =>
        .ok (reg2,
          { pac with
            hasAccess := updMap2 pac.hasAccess caller user true
            userCredentials := updMap2 pac.userCredentials caller user credentialHash })

/-- Whether a call's result is a successful (non-reverting) transaction. -/
def callOk {ε α : Type} : Except ε α → Bool
  | .ok _ => true
  | .error _ => false

/-- The nullifier owner recorded after a registry call, when it succeeded. -/
def ownerAfter (r : Except RegError RegistryState) (nullifier : Nat) : Option Nat :=
  match r with
  | .ok s => some (s.nullifierOwners nullifier)
  | .error _ => none

/-- Flag `hasAccess[protocol][user]` after a `verifyAndGrantAccess` call; a
reverted call leaves the pre-state's flag in force. -/
def accessAfter (pre : PACState) (r : Except VError (RegistryState × PACState))
    (protocol user : Nat) : Bool :=
  match r with
  | .ok (_, pac2) => pac2.hasAccess protocol user
  | .error _ => pre.hasAccess protocol user

/-!
Part 3: concrete circuit witnesses (the assignment of
`TestZKKYC_ValidCase` and variants of it).
-/

/-- The fully valid assignment of `TestZKKYC_ValidCase`. -/
def wBase : ZKKYC :=
  { actualAge := 28
    actualJurisdiction := 1234567890
    actualAccredited := 1
    credentialHash := 9876543210
    passportNumber := 1357924680
    expiryDate := 1893456000
    minAge := 18
    allowedJurisdictions := fun i =>
      if i = 0 then 1234567890 else if i = 1 then 1111111111
      else if i = 2 then 2222222222 else 0
    requireAccredited := 1
    credentialHashPublic := 9876543210
    recipientAddress := 12345
    currentDate := 1740052800
    sanctionedCountries := fun i => if i = 0 then 1122334455 else 0 }

/-- Witness `wBase` with `actualAge` exactly at the policy threshold `minAge = 18`. -/
def wAgeEq : ZKKYC := { wBase with actualAge := 18 }

/-- Witness `wBase` with `actualAge = 19`, one year above the threshold. -/
def wAge19 : ZKKYC := { wBase with actualAge := 19 }

/-- Witness `wBase` with `currentDate = p - 1` and `expiryDate = 0 = currentDate + 1`
in the BN254 scalar field. -/
def wWrap : ZKKYC :=
  { wBase with
    currentDate :=
      21888242871839275222246405745257275088548364400416034343698204186575808495616
    expiryDate := 0 }

/-- Same passport as `wBase`, recipient wallet 111. -/
def wRecipientA : ZKKYC := { wBase with recipientAddress := 111 }

/-- Same passport as `wBase`, recipient wallet 222, different policy data. -/
def wRecipientB : ZKKYC :=
  { wBase with
    recipientAddress := 222
    minAge := 21
    actualAccredited := 0
    requireAccredited := 0
    currentDate := 1740052801
    allowedJurisdictions := fun i => if i = 0 then 77 else 0 }

/-!
Part 4: the claims.
-/

/-- C1: the claim states that the circuit's age predicate is
`actualAge ≥ minAge`, so that a witness with `actualAge` equal to the
policy's `minAge` satisfies it and, with every other predicate satisfied,
the circuit outputs `isValid = 1`.  The code computes
`ageValid = api.Cmp(actualAge, minAge)`, which is `0` (not `1`) at
equality: on the fully valid assignment with `actualAge = minAge = 18`
every other predicate evaluates to `1` yet `ageValid = 0` and
`isValid = 0`, while the same assignment with `actualAge = 19` yields
`isValid = 1` — the comparison implemented is strictly-greater, against
the code's own `actualAge >= minAge` comment and the spec. -/
theorem ageValid_is_strict_at_equality :
    ZKKYC.jurisdictionValid wAgeEq = 1 ∧ ZKKYC.hashValid wAgeEq = 1 ∧
    ZKKYC.accreditationValid wAgeEq = 1 ∧ ZKKYC.expiryValid wAgeEq = 1 ∧
    ZKKYC.isNotSanctioned wAgeEq = 1 ∧
    ZKKYC.ageValid wAgeEq = 0 ∧ (ZKKYC.define wAgeEq).isValid = 0 ∧
    ZKKYC.ageValid wAge19 = 1 ∧ (ZKKYC.define wAge19).isValid = 1 := by
  decide

/-- C4: the claim states that every witness satisfying the age,
jurisdiction, sanctions, expiry, accreditation and hash predicates yields
`isValid = 1` and `packedFlags` equal to the expected 4-bit pattern
`isOver18 + 2·isOver21 + 4·expiryValid + 8·notSanctioned` of the four
disclosure bits.  The disclosure values are raw `api.Cmp` results, which
are `−1` (not `0`) below a threshold: on the witness with
`actualAge = 19` against a `minAge = 18` policy every predicate holds and
`isValid = 1`, yet `isOver21 = Cmp(19, 21) = −1`, so
`packedFlags = 1 + 2·(−1) + 4 + 8 = 11` in the field — not the expected
bit pattern `13` (over18 set, over21 clear, expiry set, notSanctioned
set); bit 1 of `11` falsely reports over-21 and bit 2 falsely reports
expiry.  This is the same `Cmp` slip as C1; the repository's own Go test
(`TestZKKYC_InvalidAge_TooYoung`) expects `0/1`-valued flags. -/
theorem packedFlags_misreports_disclosure_bits :
    ZKKYC.ageValid wAge19 = 1 ∧ ZKKYC.jurisdictionValid wAge19 = 1 ∧
    ZKKYC.isNotSanctioned wAge19 = 1 ∧ ZKKYC.expiryValid wAge19 = 1 ∧
    ZKKYC.accreditationValid wAge19 = 1 ∧ ZKKYC.hashValid wAge19 = 1 ∧
    (ZKKYC.define wAge19).isValid = 1 ∧
    ZKKYC.isOver18 wAge19 = 1 ∧ ZKKYC.isOver21 wAge19 = -1 ∧
    (ZKKYC.define wAge19).packedFlags = 11 ∧
    (ZKKYC.define wAge19).packedFlags ≠ 13 := by
  decide

/-- C6 counterexample: the claim quantifies over every witness, but in the
BN254 scalar field `currentDate + 1` wraps at `p − 1`: on `wWrap`,
`expiryDate = currentDate + 1` holds yet `expiryValid = Cmp(0, p−1) = −1`,
not `1`. -/
theorem expiry_boundary_wraparound_cex :
    wWrap.expiryDate = wWrap.currentDate + 1 ∧ ZKKYC.expiryValid wWrap ≠ 1 := by
  decide

/-- C6 (amended): for every witness, `expiryDate = currentDate` forces
`expiryValid = 0` and hence `isValid = 0`; and whenever incrementing
`currentDate` does not wrap around the field modulus,
`expiryDate = currentDate + 1` yields `expiryValid = 1`. -/
theorem expiry_strict_boundary (c : ZKKYC) :
    (c.expiryDate = c.currentDate →
      ZKKYC.expiryValid c = 0 ∧ (ZKKYC.define c).isValid = 0) ∧
    (c.currentDate.val + 1 < p → c.expiryDate = c.currentDate + 1 →
      ZKKYC.expiryValid c = 1) := by
  constructor
  · intro h
    have h0 : ZKKYC.expiryValid c = 0 := by
      simp [ZKKYC.expiryValid, gcmp, h]
    refine ⟨h0, ?_⟩
    unfold ZKKYC.define
    rw [h0]
    ring
  · intro hlt h
    have hone : (1 : F).val = 1 := ZMod.val_one p
    have hval : (c.currentDate + 1).val = c.currentDate.val + 1 := by
      rw [ZMod.val_add_of_lt]
      · rw [hone]
      · rw [hone]; exact hlt
    simp [ZKKYC.expiryValid, gcmp, h, hval]

/-- Closed instance of `expiry_strict_boundary`: at `currentDate =
1740052800`, an `expiryDate` equal to it fails and one second later
passes. -/
theorem expiry_strict_boundary_witness :
    ZKKYC.expiryValid { wBase with expiryDate := 1740052800 } = 0 ∧
    (ZKKYC.define { wBase with expiryDate := 1740052800 }).isValid = 0 ∧
    ZKKYC.expiryValid { wBase with expiryDate := 1740052801 } = 1 := by
  have h1 := (expiry_strict_boundary { wBase with expiryDate := 1740052800 }).1
    (by decide)
  have h2 := (expiry_strict_boundary { wBase with expiryDate := 1740052801 }).2
    (by decide) (by decide)
  exact ⟨h1.1, h1.2, h2⟩

/-- C7: in the 10-slot membership primitive, a slot holding the sentinel
`0` never contributes a match, whatever the actual value; in particular,
when every nonzero slot differs from the actual value — including the case
`actual = 0` — the membership result is `0`. -/
theorem sentinel_slot_never_matches (actual : F) (allowed : Fin 10 → F) :
    (∀ i, allowed i = 0 → ZKKYC.matchAt actual allowed i = 0) ∧
    ((∀ i, allowed i ≠ 0 → allowed i ≠ actual) →
      ZKKYC.checkJurisdiction actual allowed = 0) := by
  constructor
  · intro i h
    simp [ZKKYC.matchAt, h, gcmp]
  · intro h
    have hm : ∀ i, ZKKYC.matchAt actual allowed i = 0 := by
      intro i
      by_cases h0 : allowed i = 0
      · simp [ZKKYC.matchAt, h0, gcmp]
      · have hne : actual - allowed i ≠ 0 := by
          rw [sub_ne_zero]
          exact fun he => h i h0 he.symm
        simp [ZKKYC.matchAt, gIsZero, hne]
    have hsum : ZKKYC.matchSum actual allowed = 0 := by
      unfold ZKKYC.matchSum
      have e : List.finRange 10 = [0, 1, 2, 3, 4, 5, 6, 7, 8, 9] := by decide
      rw [e]
      simp [List.foldl, hm]
    simp [ZKKYC.checkJurisdiction, hsum, gcmp]

/-- Closed instance of `sentinel_slot_never_matches` with `actual = 0`
against a list holding one nonzero entry and nine sentinel slots. -/
theorem sentinel_slot_never_matches_witness :
    ZKKYC.matchAt 0 (fun i => if i = 0 then 55 else 0) 3 = 0 ∧
    ZKKYC.checkJurisdiction 0 (fun i => if i = 0 then 55 else 0) = 0 :=
  ⟨(sentinel_slot_never_matches 0 (fun i => if i = 0 then 55 else 0)).1 3
      (by decide),
    (sentinel_slot_never_matches 0 (fun i => if i = 0 then 55 else 0)).2
      (by decide)⟩

/-- The jurisdiction loop fails exactly when some slot `i < 10` of the
proof differs from the policy's slot (or from `0` past the list's end). -/
theorem jurisdictionMatches_eq_false_iff (req : List Nat) (signals : Nat → Nat) :
    jurisdictionMatches req signals = false ↔
      ∃ i, i < 10 ∧ signals (1 + i) ≠ expectedJurisdiction req i := by
  rw [jurisdictionMatches, Bool.eq_false_iff, ne_eq, List.all_eq_true]
  push_neg
  constructor
  · rintro ⟨i, hi, hne⟩
    exact ⟨i, List.mem_range.mp hi, by simpa using hne⟩
  · rintro ⟨i, hi, hne⟩
    exact ⟨i, List.mem_range.mpr hi, by simpa using hne⟩

/-- The jurisdiction loop reads only `publicSignals[1..10]`. -/
theorem jurisdictionMatches_congr (req : List Nat) (s1 s2 : Nat → Nat)
    (h : ∀ i, i < 10 → s1 (1 + i) = s2 (1 + i)) :
    jurisdictionMatches req s1 = jurisdictionMatches req s2 := by
  rw [jurisdictionMatches, jurisdictionMatches, Bool.eq_iff_iff,
    List.all_eq_true, List.all_eq_true]
  constructor
  · intro hh i hi
    rw [← h i (List.mem_range.mp hi)]
    exact hh i hi
  · intro hh i hi
    rw [h i (List.mem_range.mp hi)]
    exact hh i hi

/-- A registry state holding one active credential `77` issued by issuer
`9`, with no nullifier bound and account `1` as admin and issuer manager. -/
def regW : RegistryState :=
  { credentials := fun h => h == 77
    credentialIssuers := fun h => if h = 77 then 9 else 0
    revokedCredentials := fun _ => false
    trustedIssuers := fun i => i == 9
    issuerNames := fun _ => ""
    nullifierOwners := fun _ => 0
    userToCredential := fun _ => 0
    admins := fun a => a == 1
    issuerManagers := fun a => a == 1 }

/-- State `regW` with nullifier `5` already bound to wallet `4`. -/
def regBound : RegistryState :=
  { regW with nullifierOwners := fun n => if n = 5 then 4 else 0 }

/-- Any single registry transaction leaves a nullifier's nonzero owner
unchanged. -/
theorem regStep_preserves_owner (s : RegistryState) (op : RegOp) (n A : Nat)
    (hnz : A ≠ 0) (hA : s.nullifierOwners n = A) :
    (regStep s op).nullifierOwners n = A := by
  cases op with
  | registerCredential c h u =>
      by_cases hi : s.trustedIssuers c = false
      · simp [regStep, RegistryState.registerCredential, hi, hA]
      by_cases hc : s.credentials h = true
      · simp [regStep, RegistryState.registerCredential, hi, hc, hA]
      by_cases hr : s.revokedCredentials h = true
      · simp [regStep, RegistryState.registerCredential, hi, hc, hr, hA]
      · simp [regStep, RegistryState.registerCredential, hi, hc, hr, hA]
  | registerNullifier c m h u =>
      by_cases hc : s.credentials h = false
      · simp [regStep, RegistryState.registerNullifier, hc, hA]
      by_cases hr : s.revokedCredentials h = true
      · simp [regStep, RegistryState.registerNullifier, hc, hr, hA]
      by_cases h0 : s.nullifierOwners m = 0
      · have hnm : n ≠ m := fun he => hnz (by rw [← hA, he, h0])
        simp [regStep, RegistryState.registerNullifier, hc, hr, h0, updMap, hnm, hA]
      by_cases hu : s.nullifierOwners m = u
      · have hu0 : u ≠ 0 := fun he => h0 (hu.trans he)
        simp [regStep, RegistryState.registerNullifier, hc, hr, h0, hu, hu0, hA]
      · simp [regStep, RegistryState.registerNullifier, hc, hr, h0, hu, hA]
  | revokeCredential c h =>
      by_cases hc : s.credentials h = false
      · simp [regStep, RegistryState.revokeCredential, hc, hA]
      by_cases ha : s.credentialIssuers h = c ∨ s.admins c = true
      · simp [regStep, RegistryState.revokeCredential, hc, ha, hA]
      · simp [regStep, RegistryState.revokeCredential, hc, ha, hA]
  | addIssuer c i name =>
      by_cases hm : s.issuerManagers c = false
      · simp [regStep, RegistryState.addIssuer, hm, hA]
      by_cases ht : s.trustedIssuers i = true
      · simp [regStep, RegistryState.addIssuer, hm, ht, hA]
      · simp [regStep, RegistryState.addIssuer, hm, ht, hA]
  | removeIssuer c i =>
      by_cases hm : s.issuerManagers c = false
      · simp [regStep, RegistryState.removeIssuer, hm, hA]
      by_cases ht : s.trustedIssuers i = false
      · simp [regStep, RegistryState.removeIssuer, hm, ht, hA]
      · simp [regStep, RegistryState.removeIssuer, hm, ht, hA]

/-- C2 counterexample: the wallet argument can be the zero address, which
the code also uses as its "unbound" sentinel.  Starting from `regW`
(credential `77` active, nullifier `5` unbound), `registerNullifier(5, 77,
address(0))` succeeds and stores owner `0`; a second call
`registerNullifier(5, 77, 3)` with the *different* user `3` then also
succeeds — no `IdentityConflict` — and rebinds the nullifier to wallet
`3`, contradicting the claim as stated. -/
theorem nullifier_rebound_after_zero_wallet_cex :
    callOk (regW.registerNullifier 42 5 77 0) = true ∧
    ownerAfter (regW.registerNullifier 42 5 77 0) 5 = some 0 ∧
    ownerAfter
      ((regStep regW (RegOp.registerNullifier 42 5 77 0)).registerNullifier 43 5 77 3)
      5 = some 3 := by
  decide

/-- C2 (amended): once a nullifier is bound to a *nonzero* wallet, no
sequence of registry transactions ever rebinds it: every later
`registerNullifier` call on an active credential with a different user
reverts with `IdentityConflict` (so the whole call's state is discarded),
while a call with the same user succeeds and leaves the state unchanged. -/
theorem nullifier_binding_permanent (s : RegistryState) (n A : Nat)
    (hA : s.nullifierOwners n = A) (hnz : A ≠ 0) :
    (∀ ops : List RegOp, (regRun s ops).nullifierOwners n = A) ∧
    (∀ caller h B, s.credentials h = true → s.revokedCredentials h = false →
      B ≠ A → s.registerNullifier caller n h B = .error .identityConflict) ∧
    (∀ caller h, s.credentials h = true → s.revokedCredentials h = false →
      s.registerNullifier caller n h A = .ok s) := by
  refine ⟨?_, ?_, ?_⟩
  · intro ops
    induction ops generalizing s with
    | nil => exact hA
    | cons op rest ih =>
        exact ih (regStep s op) (regStep_preserves_owner s op n A hnz hA)
  · intro caller h B hc hr hBA
    have hne : s.nullifierOwners n ≠ B := by rw [hA]; exact fun he => hBA he.symm
    simp [RegistryState.registerNullifier, hc, hr, hA, hnz, hne, Ne.symm hBA]
  · intro caller h hc hr
    simp [RegistryState.registerNullifier, hc, hr, hA, hnz]

/-- Closed instance of `nullifier_binding_permanent` on `regBound`
(nullifier `5` bound to wallet `4`): a mixed transaction trace leaves the
owner at `4`, a call for user `3` reverts with `IdentityConflict`, and a
call for user `4` succeeds unchanged. -/
theorem nullifier_binding_permanent_witness :
    (regRun regBound
        [RegOp.registerNullifier 8 5 77 3,
         RegOp.registerCredential 9 88 2,
         RegOp.revokeCredential 9 77,
         RegOp.registerNullifier 8 5 88 3]).nullifierOwners 5 = 4 ∧
    regBound.registerNullifier 8 5 77 3 = .error .identityConflict ∧
    regBound.registerNullifier 8 5 77 4 = .ok regBound := by
  have h := nullifier_binding_permanent regBound 5 4 (by decide) (by decide)
  exact ⟨h.1 _, h.2.1 8 77 3 (by decide) (by decide) (by decide),
    h.2.2 8 77 (by decide) (by decide)⟩

/-- C9: `registerNullifier` has no caller restriction: its result is
identical for every `msg.sender`, and whenever the credential hash is
registered and unrevoked and the nullifier unbound, the call from any
caller succeeds and binds the nullifier to the supplied user. -/
theorem registerNullifier_caller_independent (s : RegistryState)
    (c1 c2 n h u : Nat) :
    s.registerNullifier c1 n h u = s.registerNullifier c2 n h u ∧
    (s.credentials h = true → s.revokedCredentials h = false →
      s.nullifierOwners n = 0 →
      ∀ c, s.registerNullifier c n h u =
          .ok { s with nullifierOwners := updMap s.nullifierOwners n u } ∧
        ownerAfter (s.registerNullifier c n h u) n = some u) := by
  refine ⟨rfl, ?_⟩
  intro hc hr h0 c
  have he : s.registerNullifier c n h u =
      .ok { s with nullifierOwners := updMap s.nullifierOwners n u } := by
    simp [RegistryState.registerNullifier, hc, hr, h0]
  refine ⟨he, ?_⟩
  rw [he]
  simp [ownerAfter, updMap]

/-- Closed instance of `registerNullifier_caller_independent` on `regW`:
callers `1000` and `2000` get the same result, and the call binds
nullifier `5` to user `3`. -/
theorem registerNullifier_caller_independent_witness :
    regW.registerNullifier 1000 5 77 3 = regW.registerNullifier 2000 5 77 3 ∧
    ownerAfter (regW.registerNullifier 1000 5 77 3) 5 = some 3 :=
  ⟨(registerNullifier_caller_independent regW 1000 2000 5 77 3).1,
    ((registerNullifier_caller_independent regW 1000 2000 5 77 3).2
      (by decide) (by decide) (by decide) 1000).2⟩

/-- A verifier state in which protocol `1` has set the policy
`{minAge: 18, allowedJurisdictions: [840], requireAccredited: false}`. -/
def pacW : PACState :=
  { protocolRequirements := fun c =>
      if c = 1 then
        { minAge := 18, allowedJurisdictions := [840]
          requireAccredited := false, isSet := true }
      else
        { minAge := 0, allowedJurisdictions := []
          requireAccredited := false, isSet := false }
    hasAccess := fun _ _ => false
    userCredentials := fun _ _ => 0 }

/-- A public-signal assignment passing every check of protocol `1`'s
policy in `pacW` against credential `77`, user `3`, nullifier `5`,
`currentDate = 7000`. -/
def signalsOkW : Nat → Nat := fun i =>
  if i = 0 then 18
  else if i = 1 then 840
  else if i = 12 then 77
  else if i = 13 then 3
  else if i = 14 then 7000
  else if i = 25 then 1
  else if i = 26 then 5
  else if i = 27 then 15
  else 0

/-- Inversion: the jurisdiction-mismatch revert can only come from the
jurisdiction loop itself failing. -/
theorem verify_error_jurisdiction_inv
    (reg : RegistryState) (pac : PACState) (caller selfAddr : Nat)
    (proofOk : Bool) (signals : Nat → Nat) (credentialHash user now : Nat) :
    verifyAndGrantAccess reg pac caller selfAddr proofOk signals credentialHash
        user now = .error .jurisdictionMismatch →
    jurisdictionMatches (pac.protocolRequirements caller).allowedJurisdictions
        signals = false := by
  by_cases hj : jurisdictionMatches
      (pac.protocolRequirements caller).allowedJurisdictions signals = false
  · exact fun _ => hj
  rw [Bool.not_eq_false] at hj
  intro h
  exfalso
  revert h
  unfold verifyAndGrantAccess
  simp only [hj]
  by_cases h1 : (pac.protocolRequirements caller).isSet = false
  · rw [if_pos h1]; exact fun he => VError.noConfusion (Except.error.inj he)
  rw [if_neg h1]
  by_cases h2 : reg.isCredentialValid credentialHash = false
  · rw [if_pos h2]; exact fun he => VError.noConfusion (Except.error.inj he)
  rw [if_neg h2]
  by_cases h3 : proofOk = false
  · rw [if_pos h3]; exact fun he => VError.noConfusion (Except.error.inj he)
  rw [if_neg h3]
  by_cases h4 : signals 25 ≠ 1
  · rw [if_pos h4]; exact fun he => VError.noConfusion (Except.error.inj he)
  rw [if_neg h4]
  by_cases h5 : signals 0 ≠ (pac.protocolRequirements caller).minAge
  · rw [if_pos h5]; exact fun he => VError.noConfusion (Except.error.inj he)
  rw [if_neg h5]
  rw [if_neg (by simp : ¬(true = false))]
  by_cases h6 : signals 11 ≠
      (if (pac.protocolRequirements caller).requireAccredited then 1 else 0)
  · rw [if_pos h6]; exact fun he => VError.noConfusion (Except.error.inj he)
  rw [if_neg h6]
  by_cases h7 : signals 13 ≠ user
  · rw [if_pos h7]; exact fun he => VError.noConfusion (Except.error.inj he)
  rw [if_neg h7]
  by_cases h8 : signals 12 ≠ Nat.land credentialHash 0xFFFFFFFFFFFFFFF
  · rw [if_pos h8]; exact fun he => VError.noConfusion (Except.error.inj he)
  rw [if_neg h8]
  by_cases h9 : Nat.land (signals 27) 0x4 = 0
  · rw [if_pos h9]; exact fun he => VError.noConfusion (Except.error.inj he)
  rw [if_neg h9]
  by_cases h10 : Nat.land (signals 27) 0x8 = 0
  · rw [if_pos h10]; exact fun he => VError.noConfusion (Except.error.inj he)
  rw [if_neg h10]
  by_cases h11 : 21 ≤ (pac.protocolRequirements caller).minAge ∧
      Nat.land (signals 27) 0x2 = 0
  · rw [if_pos h11]; exact fun he => VError.noConfusion (Except.error.inj he)
  rw [if_neg h11]
  by_cases h12 : (pac.protocolRequirements caller).minAge < 21 ∧
      18 ≤ (pac.protocolRequirements caller).minAge ∧ Nat.land (signals 27) 0x1 = 0
  · rw [if_pos h12]; exact fun he => VError.noConfusion (Except.error.inj he)
  rw [if_neg h12]
  by_cases h13 : now < signals 14
  · rw [if_pos h13]; exact fun he => VError.noConfusion (Except.error.inj he)
  rw [if_neg h13]
  by_cases h14 : now < 3600
  · rw [if_pos h14]; exact fun he => VError.noConfusion (Except.error.inj he)
  rw [if_neg h14]
  by_cases h15 : signals 14 < now - 3600
  · rw [if_pos h15]; exact fun he => VError.noConfusion (Except.error.inj he)
  rw [if_neg h15]
  rcases hreg : reg.registerNullifier selfAddr (signals 26) credentialHash user
    with e | reg2
  · exact fun he => VError.noConfusion (Except.error.inj he)
  · exact fun he => Except.noConfusion he

/-- C3: with the preceding checks (policy set, credential valid, proof
accepted, `isValid = 1`, `minAge` equal) passing, `verifyAndGrantAccess`
reverts with the jurisdiction-mismatch error exactly when some slot
`i < 10` of `publicSignals[1..10]` differs from the caller's
`allowedJurisdictions[i]` — or from `0` for `i` at or past the list's
length.  Any reordering, strict subset, or nonzero padding therefore
reverts, granting nothing, and an exact match never raises this error. -/
theorem jurisdiction_exact_match
    (reg : RegistryState) (pac : PACState) (caller selfAddr : Nat)
    (proofOk : Bool) (signals : Nat → Nat) (credentialHash user now : Nat)
    (hset : (pac.protocolRequirements caller).isSet = true)
    (hcred : reg.isCredentialValid credentialHash = true)
    (hproof : proofOk = true)
    (h25 : signals 25 = 1)
    (h0 : signals 0 = (pac.protocolRequirements caller).minAge) :
    (verifyAndGrantAccess reg pac caller selfAddr proofOk signals
        credentialHash user now = .error .jurisdictionMismatch) ↔
      ∃ i, i < 10 ∧ signals (1 + i) ≠
        expectedJurisdiction
          (pac.protocolRequirements caller).allowedJurisdictions i := by
  rw [← jurisdictionMatches_eq_false_iff]
  subst hproof
  by_cases hj : jurisdictionMatches
      (pac.protocolRequirements caller).allowedJurisdictions signals = false
  · rw [iff_true_right hj]
    unfold verifyAndGrantAccess
    simp [hset, hcred, h25, h0, hj]
  · rw [iff_false_right hj]
    intro hcontra
    exact hj (verify_error_jurisdiction_inv reg pac caller selfAddr true
      signals credentialHash user now hcontra)

/-- Closed instance of `jurisdiction_exact_match`: against policy `[840]`,
signals carrying `841` in slot one make the call revert with the
jurisdiction mismatch, and the matching signals do not. -/
theorem jurisdiction_exact_match_witness :
    verifyAndGrantAccess regW pacW 1 99 true (updMap signalsOkW 1 841) 77 3 7000
      = .error .jurisdictionMismatch ∧
    ¬(verifyAndGrantAccess regW pacW 1 99 true signalsOkW 77 3 7000
      = .error .jurisdictionMismatch) := by
  constructor
  · exact (jurisdiction_exact_match regW pacW 1 99 true (updMap signalsOkW 1 841)
      77 3 7000 (by decide) (by decide) rfl (by decide) (by decide)).mpr
      ⟨0, by decide, by decide⟩
  · intro hcontra
    rcases (jurisdiction_exact_match regW pacW 1 99 true signalsOkW
        77 3 7000 (by decide) (by decide) rfl (by decide) (by decide)).mp hcontra
      with ⟨i, hi, hne⟩
    interval_cases i <;> revert hne <;> decide

/-- C10: `verifyAndGrantAccess` never reads `publicSignals[15..24]`: two
calls whose signal arrays agree outside those slots (the proof backend's
verdict being the same) produce identical results — same revert or
success, same registry and access-control post-state; only `packedFlags`
bit 3 speaks for the sanctions list. -/
theorem sanctioned_slots_unread
    (reg : RegistryState) (pac : PACState) (caller selfAddr : Nat)
    (proofOk : Bool) (s1 s2 : Nat → Nat) (credentialHash user now : Nat)
    (hdiff : ∀ i, i < 15 ∨ 24 < i → s1 i = s2 i) :
    verifyAndGrantAccess reg pac caller selfAddr proofOk s1 credentialHash user now =
    verifyAndGrantAccess reg pac caller selfAddr proofOk s2 credentialHash user now := by
  have h0 := hdiff 0 (by omega)
  have h11 := hdiff 11 (by omega)
  have h12 := hdiff 12 (by omega)
  have h13 := hdiff 13 (by omega)
  have h14 := hdiff 14 (by omega)
  have h25 := hdiff 25 (by omega)
  have h26 := hdiff 26 (by omega)
  have h27 := hdiff 27 (by omega)
  have hj := jurisdictionMatches_congr
    (pac.protocolRequirements caller).allowedJurisdictions s1 s2
    (fun i hi => hdiff (1 + i) (by omega))
  simp only [verifyAndGrantAccess, h0, h11, h12, h13, h14, h25, h26, h27, hj]

/-- Closed instance of `sanctioned_slots_unread`: overwriting sanctioned
slot `20` with an arbitrary nonzero country changes nothing about the
call's result. -/
theorem sanctioned_slots_unread_witness :
    verifyAndGrantAccess regW pacW 1 99 true signalsOkW 77 3 7000 =
    verifyAndGrantAccess regW pacW 1 99 true (updMap signalsOkW 20 999) 77 3 7000 :=
  sanctioned_slots_unread regW pacW 1 99 true signalsOkW (updMap signalsOkW 20 999)
    77 3 7000
    (fun i hi => by
      rw [updMap, if_neg (by omega)])

/-- C5: with every non-temporal check passing and the nullifier
registerable, `verifyAndGrantAccess` enforces the freshness window with
inclusive bounds on `publicSignals[14]`: any `currentDate` between
`now − 1 hour` and `now` (inclusive) succeeds and grants access, a
successful call implies `currentDate` lies in that window, a `currentDate`
of `now − 61 minutes` reverts with the staleness error, and one of
`now − 59 minutes` succeeds. -/
theorem freshness_window_inclusive
    (reg : RegistryState) (pac : PACState) (caller selfAddr : Nat)
    (signals : Nat → Nat) (credentialHash user now : Nat)
    (hset : (pac.protocolRequirements caller).isSet = true)
    (hcred : reg.isCredentialValid credentialHash = true)
    (h25 : signals 25 = 1)
    (h0 : signals 0 = (pac.protocolRequirements caller).minAge)
    (hjur : jurisdictionMatches
      (pac.protocolRequirements caller).allowedJurisdictions signals = true)
    (h11 : signals 11 =
      (if (pac.protocolRequirements caller).requireAccredited then 1 else 0))
    (h13 : signals 13 = user)
    (h12 : signals 12 = Nat.land credentialHash 0xFFFFFFFFFFFFFFF)
    (h4 : Nat.land (signals 27) 0x4 ≠ 0)
    (h8 : Nat.land (signals 27) 0x8 ≠ 0)
    (h2 : 21 ≤ (pac.protocolRequirements caller).minAge →
      Nat.land (signals 27) 0x2 ≠ 0)
    (h1f : (pac.protocolRequirements caller).minAge < 21 →
      18 ≤ (pac.protocolRequirements caller).minAge →
      Nat.land (signals 27) 0x1 ≠ 0)
    (hnull : reg.nullifierOwners (signals 26) = 0 ∨
      reg.nullifierOwners (signals 26) = user)
    (hnow : 3660 ≤ now) :
    (∀ v, v ≤ now → now - 3600 ≤ v →
      callOk (verifyAndGrantAccess reg pac caller selfAddr true
          (updMap signals 14 v) credentialHash user now) = true ∧
        accessAfter pac (verifyAndGrantAccess reg pac caller selfAddr true
          (updMap signals 14 v) credentialHash user now) caller user = true) ∧
    (∀ v, callOk (verifyAndGrantAccess reg pac caller selfAddr true
        (updMap signals 14 v) credentialHash user now) = true →
      v ≤ now ∧ now - 3600 ≤ v) ∧
    (verifyAndGrantAccess reg pac caller selfAddr true
        (updMap signals 14 (now - 3660)) credentialHash user now
      = .error .proofTooOld) ∧
    (callOk (verifyAndGrantAccess reg pac caller selfAddr true
        (updMap signals 14 (now - 3540)) credentialHash user now) = true ∧
      accessAfter pac (verifyAndGrantAccess reg pac caller selfAddr true
        (updMap signals 14 (now - 3540)) credentialHash user now)
        caller user = true) := by
  have hcred2 := hcred
  unfold RegistryState.isCredentialValid at hcred2
  rw [Bool.and_eq_true, Bool.not_eq_true'] at hcred2
  obtain ⟨hcredT, hrevF⟩ := hcred2
  have hc21 : ¬(21 ≤ (pac.protocolRequirements caller).minAge ∧
      Nat.land (signals 27) 0x2 = 0) := fun hc => h2 hc.1 hc.2
  have hc18 : ¬((pac.protocolRequirements caller).minAge < 21 ∧
      18 ≤ (pac.protocolRequirements caller).minAge ∧
      Nat.land (signals 27) 0x1 = 0) := fun hc => h1f hc.1 hc.2.1 hc.2.2
  have hreg : ∃ reg2,
      reg.registerNullifier selfAddr (signals 26) credentialHash user
        = .ok reg2 := by
    by_cases hz : reg.nullifierOwners (signals 26) = 0
    · exact ⟨{ reg with
          nullifierOwners := updMap reg.nullifierOwners (signals 26) user },
        by simp [RegistryState.registerNullifier, hcredT, hrevF, hz]⟩
    · have hu : reg.nullifierOwners (signals 26) = user := hnull.resolve_left hz
      have hz2 : user ≠ 0 := fun he => hz (hu.trans he)
      exact ⟨reg, by simp [RegistryState.registerNullifier, hcredT, hrevF, hu, hz2]⟩
  obtain ⟨reg2, hreg⟩ := hreg
  have hV : ∀ v, verifyAndGrantAccess reg pac caller selfAddr true
      (updMap signals 14 v) credentialHash user now =
      if now < v then .error .proofDateInFuture
      else if v < now - 3600 then .error .proofTooOld
      else .ok (reg2,
        { pac with
          hasAccess := updMap2 pac.hasAccess caller user true
          userCredentials := updMap2 pac.userCredentials caller user credentialHash }) := by
    intro v
    have ujur : jurisdictionMatches
        (pac.protocolRequirements caller).allowedJurisdictions
        (updMap signals 14 v) = true := by
      rw [jurisdictionMatches_congr _ _ signals (fun i hi =>
        show (if 1 + i = 14 then v else signals (1 + i)) = signals (1 + i)
          from if_neg (by omega))]
      exact hjur
    simp only [verifyAndGrantAccess]
    rw [ujur]
    simp [updMap, hset, hcred, h25, h0, h11, h13, h12, h4, h8, hc21, hc18,
      hreg, show ¬(now < 3600) from by omega]
  refine ⟨?_, ?_, ?_, ?_⟩
  · intro v hv1 hv2
    rw [hV v, if_neg (by omega), if_neg (by omega)]
    simp [callOk, accessAfter, updMap2, updMap]
  · intro v hOk
    constructor
    · by_contra hv
      push_neg at hv
      rw [hV v, if_pos hv] at hOk
      exact absurd hOk (by simp [callOk])
    · by_contra hv
      push_neg at hv
      by_cases hnv : now < v
      · rw [hV v, if_pos hnv] at hOk
        exact absurd hOk (by simp [callOk])
      · rw [hV v, if_neg hnv, if_pos (by omega)] at hOk
        exact absurd hOk (by simp [callOk])
  · rw [hV (now - 3660), if_neg (by omega), if_pos (by omega)]
  · rw [hV (now - 3540), if_neg (by omega), if_neg (by omega)]
    simp [callOk, accessAfter, updMap2, updMap]

/-- Closed instance of `freshness_window_inclusive` at `now = 10000`:
`currentDate = 6340 = now − 61 min` reverts as too old, while
`currentDate = 6460 = now − 59 min` succeeds and grants access. -/
theorem freshness_window_inclusive_witness :
    verifyAndGrantAccess regW pacW 1 99 true (updMap signalsOkW 14 6340)
      77 3 10000 = .error .proofTooOld ∧
    callOk (verifyAndGrantAccess regW pacW 1 99 true (updMap signalsOkW 14 6460)
      77 3 10000) = true ∧
    accessAfter pacW (verifyAndGrantAccess regW pacW 1 99 true
      (updMap signalsOkW 14 6460) 77 3 10000) 1 3 = true := by
  have h := freshness_window_inclusive regW pacW 1 99 signalsOkW 77 3 10000
    (by decide) (by decide) (by decide) (by decide) (by decide) (by decide)
    (by decide) (by decide) (by decide) (by decide) (by decide) (by decide)
    (by decide) (by decide)
  exact ⟨h.2.2.1, h.2.2.2.1, h.2.2.2.2⟩

/-- C8: the nullifier output `Mul(PassportNumber, 1)` depends on
`passportNumber` alone: two evaluations agreeing on `passportNumber`
produce the same nullifier whatever their other inputs. -/
theorem nullifier_function_of_passport (c1 c2 : ZKKYC)
    (h : c1.passportNumber = c2.passportNumber) :
    (ZKKYC.define c1).nullifier = (ZKKYC.define c2).nullifier := by
  simp [ZKKYC.define, h]

/-- Closed instance of `nullifier_function_of_passport`: recipients 111
and 222 with differing policy data but one passport share a nullifier. -/
theorem nullifier_function_of_passport_witness :
    wRecipientA.passportNumber = wRecipientB.passportNumber ∧
    (ZKKYC.define wRecipientA).nullifier = (ZKKYC.define wRecipientB).nullifier :=
  ⟨rfl, nullifier_function_of_passport wRecipientA wRecipientB rfl⟩

end Noah
